import Mathlib

/-!
Shallow embedding of the TuteNetClient core: the error taxonomy and classifier
(`src/packages/core/src/errors/clientErrors.ts`), the retry engine and backoff
calculator (`src/packages/core/dist/utils/retry.js`), the configuration
validator (`src/packages/core/src/config/environment.ts`), and the two
`BaseClient` request-execution designs (the pass-through
`src/packages/core/src/client/baseClient.ts` and the legacy unwrap-or-throw
variant), together with theorems settling the specification's claims about
them.
-/

namespace TuteNet

/-! ## Error taxonomy (`clientErrors.ts`)

Every error class in the source extends `ClientError` directly (none extends
another subclass), so a runtime value's dynamic class is captured exactly by a
single tag.  `ErrKind.plain` is a value constructed by `new ClientError(...)`
itself. -/

inductive ErrKind where
  | network
  | validation
  | authentication
  | authorization
  | notFound
  | conflict
  | rateLimit
  | server
  | serviceUnavailable
  | timeout
  | plain
  deriving DecidableEq, Repr

/-- Structured `details` payload: a JS `Record<string, string>`. -/
def Details : Type := List (String × String)

instance : DecidableEq Details := inferInstanceAs (DecidableEq (List (String × String)))

/-- A constructed `ClientError` instance: the dynamic class tag plus the fields
set by the base-class constructor. -/
structure ClientError where
  kind : ErrKind
  message : String
  code : String
  statusCode : Option Nat
  details : Option Details
  requestId : Option String
  deriving DecidableEq

/-- `new NetworkError(message, originalError?, requestId?)`; the wrapped
`originalError` plays no role in any claim and is not carried. -/
def NetworkError (message : String) (requestId : Option String) : ClientError :=
  { kind := .network, message := message, code := "NETWORK_ERROR",
    statusCode := none, details := none, requestId := requestId }

/-- `new ValidationError(message, details?, requestId?)`. -/
def ValidationError (message : String) (details : Option Details)
    (requestId : Option String) : ClientError :=
  { kind := .validation, message := message, code := "VALIDATION_ERROR",
    statusCode := some 400, details := details, requestId := requestId }

/-- `new AuthenticationError(message, requestId?)`. -/
def AuthenticationError (message : String) (requestId : Option String) : ClientError :=
  { kind := .authentication, message := message, code := "AUTHENTICATION_ERROR",
    statusCode := some 401, details := none, requestId := requestId }

/-- `new AuthorizationError(message, requestId?)`. -/
def AuthorizationError (message : String) (requestId : Option String) : ClientError :=
  { kind := .authorization, message := message, code := "AUTHORIZATION_ERROR",
    statusCode := some 403, details := none, requestId := requestId }

/-- `new NotFoundError(resource, identifier?, requestId?)`: the message is
synthesized from the `resource` argument. -/
def NotFoundError (resource : String) (identifier : Option String)
    (requestId : Option String) : ClientError :=
  { kind := .notFound,
    message := match identifier with
      | some i => resource ++ " not found: " ++ i
      | none => resource ++ " not found",
    code := "NOT_FOUND_ERROR", statusCode := some 404, details := none,
    requestId := requestId }

/-- `new ConflictError(message, requestId?)`. -/
def ConflictError (message : String) (requestId : Option String) : ClientError :=
  { kind := .conflict, message := message, code := "CONFLICT_ERROR",
    statusCode := some 409, details := none, requestId := requestId }

/-- `new RateLimitError(message, retryAfter?, requestId?)`; `retryAfter` is
only stored, never read by the embedded code paths. -/
def RateLimitError (message : String) (requestId : Option String) : ClientError :=
  { kind := .rateLimit, message := message, code := "RATE_LIMIT_ERROR",
    statusCode := some 429, details := none, requestId := requestId }

/-- `new ServerError(message, statusCode = 500, requestId?)`. -/
def ServerError (message : String) (statusCode : Nat)
    (requestId : Option String) : ClientError :=
  { kind := .server, message := message, code := "SERVER_ERROR",
    statusCode := some statusCode, details := none, requestId := requestId }

/-- `new ServiceUnavailableError(serviceName, requestId?)`: the message is
synthesized from the `serviceName` argument.  Note the class extends
`ClientError`, not `ServerError`. -/
def ServiceUnavailableError (serviceName : String) (requestId : Option String) : ClientError :=
  { kind := .serviceUnavailable,
    message := serviceName ++ " is temporarily unavailable",
    code := "SERVICE_UNAVAILABLE_ERROR", statusCode := some 503, details := none,
    requestId := requestId }

/-- `new TimeoutError(timeout, requestId?)`. -/
def TimeoutError (timeout : Nat) (requestId : Option String) : ClientError :=
  { kind := .timeout,
    message := "Request timed out after " ++ toString timeout ++ "ms",
    code := "TIMEOUT_ERROR", statusCode := none, details := none,
    requestId := requestId }

/-- `error instanceof NetworkError` (the flat class hierarchy makes
`instanceof` a tag test). -/
def ClientError.isNetworkError (e : ClientError) : Bool := e.kind == .network

/-- `error instanceof TimeoutError`. -/
def ClientError.isTimeoutError (e : ClientError) : Bool := e.kind == .timeout

/-- `error instanceof RateLimitError`. -/
def ClientError.isRateLimitError (e : ClientError) : Bool := e.kind == .rateLimit

/-- `error instanceof ServerError`; `ServiceUnavailableError` is NOT a
subclass of `ServerError` in the source, so its tag does not pass this test. -/
def ClientError.isServerError (e : ClientError) : Bool := e.kind == .server

/-- A JS value reaching `isRetryableError` (typed `any` in the source): either
a `ClientError` instance or any other value, the latter represented by an
opaque tag. -/
inductive JSError where
  | client (e : ClientError)
  | other (tag : String)
  deriving DecidableEq

/-- JS truthiness of `e.statusCode`: present and nonzero. -/
def statusCodeTruthy (s : Option Nat) : Bool :=
  match s with
  | some n => n != 0
  | none => false

/-- `isRetryableError(error)` from `clientErrors.ts`:
`instanceof` checks for the four retryable classes, with the `ServerError`
case additionally requiring a truthy `statusCode >= 500`. -/
def isRetryableError (error : JSError) : Bool :=
  match error with
  | .client e =>
      if e.isNetworkError then true
      else if e.isTimeoutError then true
      else if e.isRateLimitError then true
      else if e.isServerError && statusCodeTruthy e.statusCode
              && (e.statusCode.getD 0) ≥ 500 then true
      else false
  | .other _ => false

/-! ## Response bodies and the classifier -/

/-- The `error` field of a response body: `{code?, message?, details?}`. -/
structure ErrField where
  code : Option String
  message : Option String
  details : Option Details
  deriving DecidableEq

/-- The `data` (body) value handed to the classifier and to response handling;
typed `any` in the source.  `primitive` covers non-object JS values (strings
etc.), `nullValue` covers `null`/`undefined`, and `obj` an object with an
optional `success` discriminant, an optional `error` field and an optional
`data` payload (payload contents opaque). -/
inductive ResponseBody where
  | primitive (s : String)
  | nullValue
  | obj (success : Option Bool) (error : Option ErrField) (dataField : Option String)
  deriving DecidableEq

/-- `data?.error`. -/
def ResponseBody.errorField : ResponseBody → Option ErrField
  | .obj _ e _ => e
  | _ => none

/-- JS truthiness of the body value (an object is always truthy; the empty
string and `null`/`undefined` are falsy). -/
def ResponseBody.truthy : ResponseBody → Bool
  | .primitive s => s != ""
  | .nullValue => false
  | .obj _ _ _ => true

/-- `errorData?.message || "HTTP <status> error"`: the JS `||` falls through on
a falsy extracted message, and the empty string is the falsy string. -/
def classifierMessage (status : Nat) (data : ResponseBody) : String :=
  match data.errorField >>= ErrField.message with
  | some m => if m == "" then "HTTP " ++ toString status ++ " error" else m
  | none => "HTTP " ++ toString status ++ " error"

/-- `createErrorFromResponse(status, data, requestId?)` from
`clientErrors.ts`: the switch over the HTTP status. -/
def createErrorFromResponse (status : Nat) (data : ResponseBody)
    (requestId : Option String) : ClientError :=
  let errorData := data.errorField
  let message := classifierMessage status data
  let details := errorData >>= ErrField.details
  if status == 400 then ValidationError message details requestId
  else if status == 401 then AuthenticationError message requestId
  else if status == 403 then AuthorizationError message requestId
  else if status == 404 then NotFoundError message none requestId
  else if status == 409 then ConflictError message requestId
  else if status == 429 then RateLimitError message requestId
  else if status == 503 then ServiceUnavailableError message requestId
  else if status ≥ 500 then ServerError message status requestId
  else { kind := .plain, message := message, code := "HTTP_ERROR",
         statusCode := some status, details := details, requestId := requestId }

/-! ## Retry engine (`retry.js`)

`retry(operation, config)` runs `for (let attempt = 1; attempt <=
finalConfig.maxAttempts; attempt++)`, invoking the operation once per
iteration; on failure it records `lastError`, breaks on the last allowed
attempt or when `shouldRetry` rejects, and finally `throw lastError`.  The
embedding makes the asynchronous operation a function from the 1-based attempt
number to that invocation's outcome, ignores the sleeps (timing is not
modelled), and additionally counts invocations.  `maxAttempts` is an `Int`
since the JS config may hold a non-positive number, in which case the loop
body never runs and the `undefined` initial `lastError` is thrown — modelled
as rejection with `none`. -/

/-- Settled outcome of `retry`: resolution with a value, or rejection with the
thrown `lastError` (`none` when `lastError` was never assigned, i.e. the JS
`undefined`). -/
inductive RetryOutcome (ε α : Type) where
  | resolved (v : α)
  | rejected (e : Option ε)
  deriving DecidableEq

/-- The parts of the merged retry configuration that determine the control
flow (`initialDelay`, `maxDelay`, `backoffMultiplier`, `jitter` only feed the
sleep lengths; `onRetry` is a logging hook). -/
structure RetryConfig (ε : Type) where
  maxAttempts : Int
  shouldRetry : ε → Bool

/-- The loop of `retry`, recursing on `remaining = maxAttempts - attempt + 1`,
the number of loop iterations still permitted; `remaining = 0` is the loop
exiting and throwing `lastError`, and `remaining = 1` means
`attempt === maxAttempts` (the "don't retry on last attempt" break).
`count` accumulates the number of invocations of `operation` so far. -/
def retryLoop (operation : Nat → Except ε α) (shouldRetry : ε → Bool)
    (attempt : Nat) (remaining : Nat) (lastError : Option ε) (count : Nat) :
    RetryOutcome ε α × Nat :=
  match remaining with
  | 0 => (.rejected lastError, count)
  | r + 1 =>
    match operation attempt with
    | .ok v => (.resolved v, count + 1)
    | .error e =>
      if r == 0 then (.rejected (some e), count + 1)
      else if !shouldRetry e then (.rejected (some e), count + 1)
      else retryLoop operation shouldRetry (attempt + 1) r (some e) (count + 1)

/-- `retry(operation, config)`: start at `attempt = 1` with `lastError`
unassigned; the loop runs `max(maxAttempts, 0)` times at most. -/
def retry (operation : Nat → Except ε α) (config : RetryConfig ε) :
    RetryOutcome ε α × Nat :=
  retryLoop operation config.shouldRetry 1 config.maxAttempts.toNat none 0

/-! ## Backoff calculator (`retry.js` / `calculateDelay`)

JS numbers are modelled by `ℚ`; `Math.random()` is made an explicit argument
`rand` (a draw in `[0,1]`), consulted only when `jitter` is set. -/

/-- `calculateDelay(attempt, initialDelay, maxDelay, multiplier, jitter)`. -/
def calculateDelay (attempt : Nat) (initialDelay maxDelay multiplier : ℚ)
    (jitter : Bool) (rand : ℚ) : ℚ :=
  let delay := initialDelay * multiplier ^ attempt
  let delay := min delay maxDelay
  let delay :=
    if jitter then
      let jitterAmount := delay * 0.25
      delay + (rand * 2 - 1) * jitterAmount
    else delay
  max delay 0

/-! ## Configuration validation (`environment.ts`) -/

/-- `Object.values(Environment)`. -/
def environmentValues : List String := ["development", "staging", "production"]

/-- `Object.values(ApiType)`. -/
def apiTypeValues : List String := ["external", "internal"]

/-- The fields of `ClientConfig` that `validateConfig` inspects.  The
`environment` and `apiType` fields hold arbitrary strings (a caller may pass
anything); `timeout` and `retries` are optional numbers, `Int` to admit the
out-of-range negatives the validator guards against. -/
structure ClientConfig where
  environment : String
  apiType : String
  timeout : Option Int
  retries : Option Int
  deriving DecidableEq

/-- JS truthiness of an optional number: present and nonzero. -/
def numTruthy (n : Option Int) : Bool :=
  match n with
  | some v => v != 0
  | none => false

/-- `validateConfig(config)`: throws (returns `.error`) on an environment or
API type outside its enum, a truthy out-of-range timeout, or a truthy
out-of-range retry count. -/
def validateConfig (config : ClientConfig) : Except String Unit :=
  if !environmentValues.contains config.environment then
    .error ("Invalid environment: " ++ config.environment)
  else if !apiTypeValues.contains config.apiType then
    .error ("Invalid API type: " ++ config.apiType)
  else if numTruthy config.timeout
      && (config.timeout.getD 0 < 1000 || config.timeout.getD 0 > 60000) then
    .error "Timeout must be between 1000ms and 60000ms"
  else if numTruthy config.retries
      && (config.retries.getD 0 < 0 || config.retries.getD 0 > 5) then
    .error "Retries must be between 0 and 5"
  else .ok ()

/-! ## `BaseClient` request execution

Two revisions exist in the repository: the current pass-through design in
`src/packages/core/src/client/baseClient.ts`, whose `executeRequest` returns a
`success:false` error envelope as-is, and the legacy unwrap-or-throw design,
whose `handleResponse` throws a classified error on `success:false` and
unwraps `data` on `success:true`.  The transport (axios) is modelled by the
outcome it hands `executeRequest`: either a resolved response, or a rejection
carrying an optional error code and an optional HTTP error response. -/

/-- An axios response: HTTP status, decoded body and the `x-request-id`
response header. -/
structure AxiosResponse where
  status : Nat
  data : ResponseBody
  requestId : Option String
  deriving DecidableEq

/-- An axios rejection: the transport error code (`ECONNREFUSED`,
`ECONNABORTED`, ...) if any, the HTTP error response if one was received, and
the error's own message. -/
structure AxiosError where
  code : Option String
  response : Option AxiosResponse
  errMessage : String
  deriving DecidableEq

/-- One transport invocation's outcome as seen inside `executeRequest`'s
`try`/`catch`. -/
def TransportOutcome : Type := Except AxiosError AxiosResponse

/-- `handleError(error, url)`, identical in both revisions: connection errors
become `NetworkError`, `ECONNABORTED` becomes `TimeoutError`, an HTTP error
response is classified via `createErrorFromResponse`, anything else becomes a
generic `NetworkError`. -/
def handleError (baseUrl : String) (timeout : Nat) (error : AxiosError) : ClientError :=
  if error.code == some "ECONNREFUSED" || error.code == some "ENOTFOUND" then
    NetworkError ("Unable to connect to " ++ baseUrl) none
  else if error.code == some "ECONNABORTED" then
    TimeoutError timeout none
  else
    match error.response with
    | some resp => createErrorFromResponse resp.status resp.data resp.requestId
    | none => NetworkError ("Request failed: " ++ error.errMessage) none

/-- Current-revision `handleResponse(response)`: non-object bodies and raw
objects are returned unmodified, and an object carrying a `success`
discriminant is returned whole (both success and error envelopes). -/
def handleResponse (response : AxiosResponse) : ResponseBody :=
  match response.data with
  | .primitive s => .primitive s
  | .nullValue => .nullValue
  | .obj success error dataField => .obj success error dataField

/-- `typeof responseData === 'object' && responseData !== null && 'success' in
responseData && !responseData.success`: the pass-through test in the current
`executeRequest`'s catch block. -/
def isErrorEnvelope : ResponseBody → Bool
  | .obj (some success) _ _ => !success
  | _ => false

/-- Current-revision `executeRequest(config)`: on a transport rejection that
carries a truthy response body already in the `success:false` envelope shape,
return the body as-is; otherwise throw the `handleError` classification. -/
def executeRequest (baseUrl : String) (timeout : Nat) (t : TransportOutcome) :
    Except ClientError ResponseBody :=
  match t with
  | .ok response => .ok (handleResponse response)
  | .error axiosError =>
    match axiosError.response with
    | some resp =>
      if resp.data.truthy && isErrorEnvelope resp.data then .ok resp.data
      else .error (handleError baseUrl timeout axiosError)
    | none => .error (handleError baseUrl timeout axiosError)

/-- What the legacy `handleResponse` returns: the raw body when it carries no
`success` discriminant (or is not an object), or the unwrapped `data` payload
of a success envelope. -/
inductive LegacyResult where
  | raw (body : ResponseBody)
  | payload (d : String)
  deriving DecidableEq

/-- Legacy-revision `handleResponse(response)`: throw the classified error on
`success:false`, throw a `NO_DATA` engine error on `success:true` without
`data`, unwrap `data` on `success:true`, and return anything else raw. -/
def legacyHandleResponse (response : AxiosResponse) : Except ClientError LegacyResult :=
  match response.data with
  | .primitive s => .ok (.raw (.primitive s))
  | .nullValue => .ok (.raw .nullValue)
  | .obj (some success) error dataField =>
    if !success then
      .error (createErrorFromResponse response.status (.obj (some success) error dataField)
        response.requestId)
    else
      match dataField with
      | none => .error (ClientError.mk .plain "API returned success but no data"
          "NO_DATA" (some response.status) none response.requestId)
      | some d => .ok (.payload d)
  | .obj none error dataField => .ok (.raw (.obj none error dataField))

/-- Legacy-revision `executeRequest(config)`: every transport rejection is
thrown via `handleError`; resolved responses go through the unwrap-or-throw
`legacyHandleResponse`. -/
def legacyExecuteRequest (baseUrl : String) (timeout : Nat) (t : TransportOutcome) :
    Except ClientError LegacyResult :=
  match t with
  | .ok response => legacyHandleResponse response
  | .error axiosError => .error (handleError baseUrl timeout axiosError)

/-! ## Theorems: retry engine -/

/-- When every invocation fails and the predicate always allows a retry, the
loop runs through all of its remaining iterations, rejects with the error of
the last attempt, and performs one invocation per iteration. -/
theorem retryLoop_all_fail {ε α : Type} (operation : Nat → Except ε α)
    (sr : ε → Bool) (err : Nat → ε)
    (hop : ∀ n, operation n = .error (err n)) (hsr : ∀ e, sr e = true) :
    ∀ r attempt last count,
      retryLoop operation sr attempt (r + 1) last count
        = (.rejected (some (err (attempt + r))), count + (r + 1)) := by
  intro r
  induction r with
  | zero =>
    intro attempt last count
    simp [retryLoop, hop attempt]
  | succ r ih =>
    intro attempt last count
    rw [retryLoop]
    simp only [hop attempt, hsr (err attempt), Bool.not_true, Bool.false_eq_true,
      if_false, Nat.succ_ne_zero, beq_iff_eq, if_neg (Nat.succ_ne_zero r)]
    rw [ih (attempt + 1) (some (err attempt)) (count + 1)]
    have e1 : attempt + 1 + r = attempt + (r + 1) := by omega
    have e2 : count + 1 + (r + 1) = count + (r + 1 + 1) := by omega
    rw [e1, e2]

/-- Claim C1: an operation failing on every invocation with an error the policy
retries, under `maxAttempts = 3`, is invoked exactly 3 times and `retry`
rejects with the 3rd invocation's error; in general, for any
`maxAttempts ≥ 1`, `retry` performs exactly `maxAttempts` invocations and
rejects with the last invocation's error unchanged. -/
theorem retry_exhaustion_last_error {α : Type} (operation : Nat → Except Nat α)
    (err : Nat → Nat) (hop : ∀ n, operation n = .error (err n))
    (config : RetryConfig Nat) (hsr : ∀ e, config.shouldRetry e = true) :
    (config.maxAttempts = 3 →
      retry operation config = (.rejected (some (err 3)), 3)) ∧
    (1 ≤ config.maxAttempts →
      retry operation config
        = (.rejected (some (err config.maxAttempts.toNat)), config.maxAttempts.toNat)) := by
  have general : 1 ≤ config.maxAttempts →
      retry operation config
        = (.rejected (some (err config.maxAttempts.toNat)), config.maxAttempts.toNat) := by
    intro hmax
    obtain ⟨r, hr⟩ : ∃ r, config.maxAttempts.toNat = r + 1 :=
      ⟨config.maxAttempts.toNat - 1, by omega⟩
    rw [retry, hr, retryLoop_all_fail operation config.shouldRetry err hop hsr]
    rw [Nat.add_comm 1 r, Nat.zero_add]
  refine ⟨fun h3 => ?_, general⟩
  have := general (by rw [h3]; decide)
  rw [h3] at this
  simpa using this

/-- Witness for C1 at `maxAttempts = 3` with the identity error stream. -/
theorem retry_exhaustion_last_error_witness :
    retry (fun n => (Except.error n : Except Nat Nat)) ⟨3, fun _ => true⟩
      = (.rejected (some 3), 3) :=
  (retry_exhaustion_last_error (fun n => Except.error n) (fun n => n)
    (fun _ => rfl) ⟨3, fun _ => true⟩ (fun _ => rfl)).1 rfl

/-- Claim C3: when the first invocation fails with an error the policy refuses to
retry, `retry` performs exactly one invocation and rejects with that error,
for every `maxAttempts ≥ 1`. -/
theorem retry_nonretryable_short_circuit {ε α : Type} (operation : Nat → Except ε α)
    (e : ε) (hop : operation 1 = .error e) (config : RetryConfig ε)
    (hsr : config.shouldRetry e = false) (hmax : 1 ≤ config.maxAttempts) :
    retry operation config = (.rejected (some e), 1) := by
  obtain ⟨r, hr⟩ : ∃ r, config.maxAttempts.toNat = r + 1 :=
    ⟨config.maxAttempts.toNat - 1, by omega⟩
  rw [retry, hr, retryLoop]
  simp only [hop]
  cases r with
  | zero => simp
  | succ r => simp [hsr]

/-- Witness for C3: a `ValidationError` under the `isRetryableError`
predicate with `maxAttempts = 5` is invoked once and rejected immediately. -/
theorem retry_nonretryable_short_circuit_witness :
    retry (fun _ => (Except.error (ValidationError "email invalid" none none) :
        Except ClientError Nat))
      ⟨5, fun e => isRetryableError (.client e)⟩
      = (.rejected (some (ValidationError "email invalid" none none)), 1) :=
  retry_nonretryable_short_circuit
    (fun _ => Except.error (ValidationError "email invalid" none none))
    (ValidationError "email invalid" none none) rfl
    ⟨5, fun e => isRetryableError (.client e)⟩ rfl (by decide)

/-- Claim C10: with `maxAttempts ≤ 0` the loop body never runs, the operation is
never invoked, and `retry` rejects with the never-assigned `lastError` (the
JS `undefined`, embedded as `none`); with `maxAttempts = 1` the operation is
invoked exactly once whatever its outcome. -/
theorem retry_zero_or_negative_attempts {ε α : Type} (operation : Nat → Except ε α)
    (config : RetryConfig ε) :
    (config.maxAttempts ≤ 0 → retry operation config = (.rejected none, 0)) ∧
    (config.maxAttempts = 1 → (retry operation config).2 = 1) := by
  constructor
  · intro hle
    have h0 : config.maxAttempts.toNat = 0 := by omega
    rw [retry, h0, retryLoop]
  · intro h1
    have h1' : config.maxAttempts.toNat = 1 := by omega
    rw [retry, h1', retryLoop]
    cases operation 1 <;> simp

/-- Witness for C10: `maxAttempts = -1` never invokes and rejects with the
undefined `lastError`; `maxAttempts = 1` invokes exactly once. -/
theorem retry_zero_or_negative_attempts_witness :
    retry (fun n => (Except.error n : Except Nat Nat)) ⟨-1, fun _ => true⟩
        = (.rejected none, 0) ∧
    (retry (fun n => (Except.error n : Except Nat Nat)) ⟨1, fun _ => true⟩).2 = 1 :=
  ⟨(retry_zero_or_negative_attempts (fun n => Except.error n) ⟨-1, fun _ => true⟩).1
      (by decide),
    (retry_zero_or_negative_attempts (fun n => Except.error n) ⟨1, fun _ => true⟩).2 rfl⟩

/-! ## Theorems: backoff calculator -/

/-- Claim C2: with jitter disabled the computed delay is exactly
`max (min (initialDelay * multiplier ^ attemptIndex) maxDelay) 0`; in
particular `calculateDelay 10 1000 10000 2 false` is `10000` (capped), and
the result never exceeds a nonnegative `maxDelay`. -/
theorem calculateDelay_no_jitter (attempt : Nat)
    (initialDelay maxDelay multiplier rand : ℚ)
    (_hi : 0 ≤ initialDelay) (hm : 0 ≤ maxDelay) :
    calculateDelay attempt initialDelay maxDelay multiplier false rand
        = max (min (initialDelay * multiplier ^ attempt) maxDelay) 0 ∧
    calculateDelay 10 1000 10000 2 false 0 = 10000 ∧
    calculateDelay attempt initialDelay maxDelay multiplier false rand ≤ maxDelay := by
  have hmain : calculateDelay attempt initialDelay maxDelay multiplier false rand
      = max (min (initialDelay * multiplier ^ attempt) maxDelay) 0 := rfl
  refine ⟨hmain, by norm_num [calculateDelay, min_def], ?_⟩
  rw [hmain]
  exact max_le (min_le_right _ _) hm

/-- Witness for C2 at the spec's concrete cap scenario. -/
theorem calculateDelay_no_jitter_witness :
    (0 : ℚ) ≤ 1000 ∧ (0 : ℚ) ≤ 10000 ∧
    calculateDelay 10 1000 10000 2 false 0 = 10000 :=
  ⟨by norm_num, by norm_num,
    (calculateDelay_no_jitter 10 1000 10000 2 0 (by norm_num) (by norm_num)).2.1⟩

/-! ## Theorems: error taxonomy -/

/-- Claim C4: `isRetryableError` returns `true` exactly for `NetworkError`,
`TimeoutError`, `RateLimitError`, and `ServerError` instances with
`statusCode ≥ 500`, and `false` for every other value — in particular for
validation/authentication/authorization/not-found/conflict/service-unavailable
errors, for plain `ClientError`s, and for any non-`ClientError` value. -/
theorem isRetryableError_characterization (e : JSError) :
    isRetryableError e = true ↔
      ∃ ce, e = .client ce ∧
        (ce.kind = .network ∨ ce.kind = .timeout ∨ ce.kind = .rateLimit ∨
          (ce.kind = .server ∧ ∃ n, ce.statusCode = some n ∧ 500 ≤ n)) := by
  cases e with
  | other tag => simp [isRetryableError]
  | client ce =>
    obtain ⟨k, msg, code, sc, det, rid⟩ := ce
    simp only [isRetryableError, ClientError.isNetworkError, ClientError.isTimeoutError,
      ClientError.isRateLimitError, ClientError.isServerError, statusCodeTruthy]
    cases k <;> cases sc <;>
      simp_all [JSError.client.injEq, ClientError.mk.injEq]
    omega

/-- Claim C5 counterexample: status 503 is ≥ 500, yet the classified failure (a
`ServiceUnavailableError`, which is not a `ServerError` instance) is NOT
retryable — the claim that every 5xx classification is retryable fails at
503. -/
theorem retry_5xx_counterexample_503 :
    500 ≤ 503 ∧
    isRetryableError (.client (createErrorFromResponse 503
      (.obj (some false) (some ⟨some "SERVICE_UNAVAILABLE", some "try later", none⟩) none)
      (some "r1"))) = false := by
  constructor
  · decide
  · rfl

/-- Claim C5 (amended): for every HTTP status ≥ 500 other than 503, every response
body and every request id, the classified failure is retryable; 503 alone is
classified as `ServiceUnavailableError` and is not retried. -/
theorem createErrorFromResponse_5xx_retryable (status : Nat) (data : ResponseBody)
    (requestId : Option String) (h5 : 500 ≤ status) (h503 : status ≠ 503) :
    isRetryableError (.client (createErrorFromResponse status data requestId)) = true := by
  have h400 : (status == 400) = false := by simp; omega
  have h401 : (status == 401) = false := by simp; omega
  have h403 : (status == 403) = false := by simp; omega
  have h404 : (status == 404) = false := by simp; omega
  have h409 : (status == 409) = false := by simp; omega
  have h429 : (status == 429) = false := by simp; omega
  have h503' : (status == 503) = false := by simp [h503]
  simp only [createErrorFromResponse, h400, h401, h403, h404, h409, h429, h503',
    Bool.false_eq_true, if_false, if_pos h5]
  simp only [isRetryableError, ServerError, ClientError.isNetworkError,
    ClientError.isTimeoutError, ClientError.isRateLimitError, ClientError.isServerError,
    statusCodeTruthy]
  simp
  omega

/-- Witness for C5's amended theorem at status 500. -/
theorem createErrorFromResponse_5xx_retryable_witness :
    isRetryableError (.client (createErrorFromResponse 500 (.obj none none none) none)) = true :=
  createErrorFromResponse_5xx_retryable 500 (.obj none none none) none
    (by decide) (by decide)

/-! ### The classifier against the spec's table (C6)

The following `spec...` definitions restate the spec's classifier contract
(§4.3 table plus the message rule), amended where the code forces it: the
body's message is used only when present AND non-empty (the JS `||` falls
through on the empty string), and the 404 and 503 constructors append their
own suffixes to the message they are handed. -/

/-- Spec's §4.3 kind table: the failure kind for each HTTP status. -/
def specKind (status : Nat) : ErrKind :=
  if status = 400 then .validation
  else if status = 401 then .authentication
  else if status = 403 then .authorization
  else if status = 404 then .notFound
  else if status = 409 then .conflict
  else if status = 429 then .rateLimit
  else if status = 503 then .serviceUnavailable
  else if 500 ≤ status then .server
  else .plain

/-- Spec's message rule, amended: take `body.error.message` when present and
non-empty, else synthesize `"HTTP <status> error"`. -/
def specBaseMessage (status : Nat) (data : ResponseBody) : String :=
  match data.errorField >>= ErrField.message with
  | some m => if m = "" then "HTTP " ++ toString status ++ " error" else m
  | none => "HTTP " ++ toString status ++ " error"

/-- Spec's message rule, amended further for the two statuses whose
constructors synthesize their own message around the handed-in string. -/
def specMessage (status : Nat) (data : ResponseBody) : String :=
  if status = 404 then specBaseMessage status data ++ " not found"
  else if status = 503 then specBaseMessage status data ++ " is temporarily unavailable"
  else specBaseMessage status data

/-- Claim C6 counterexample: the classifier's resulting message does NOT always
equal `body.error.message` when present — at 404 the `NotFoundError`
constructor appends " not found", at 503 the `ServiceUnavailableError`
constructor appends " is temporarily unavailable", and a present-but-empty
message falls through to the synthesized string. -/
theorem createErrorFromResponse_message_counterexample :
    ((ResponseBody.obj none (some ⟨none, some "User missing", none⟩) none).errorField
        >>= ErrField.message) = some "User missing" ∧
    (createErrorFromResponse 404
        (.obj none (some ⟨none, some "User missing", none⟩) none) none).message
      ≠ "User missing" ∧
    (createErrorFromResponse 503
        (.obj none (some ⟨none, some "db down", none⟩) none) none).message
      ≠ "db down" ∧
    ((ResponseBody.obj none (some ⟨none, some "", none⟩) none).errorField
        >>= ErrField.message) = some "" ∧
    (createErrorFromResponse 400
        (.obj none (some ⟨none, some "", none⟩) none) none).message ≠ "" := by
  refine ⟨rfl, ?_, ?_, rfl, ?_⟩ <;> decide

/-- Claim C6 (amended): for every status, body and request id the classified
failure's kind follows the §4.3 table (400 validation, 401 authentication,
403 authorization, 404 not-found, 409 conflict, 429 rate-limit, 503
service-unavailable, any other ≥ 500 server, anything else the generic kind
with code `HTTP_ERROR` carrying the raw status), and its message is the
body's `error.message` when present and non-empty — with the 404/503
constructor suffixes appended — and otherwise the synthesized
`"HTTP <status> error"` (suffixed likewise). -/
theorem createErrorFromResponse_table (status : Nat) (data : ResponseBody)
    (requestId : Option String) :
    (createErrorFromResponse status data requestId).kind = specKind status ∧
    (createErrorFromResponse status data requestId).message = specMessage status data ∧
    (specKind status = .plain →
      (createErrorFromResponse status data requestId).code = "HTTP_ERROR" ∧
      (createErrorFromResponse status data requestId).statusCode = some status) := by
  have hbase : classifierMessage status data = specBaseMessage status data := by
    simp only [classifierMessage, specBaseMessage]
    cases data.errorField >>= ErrField.message with
    | none => rfl
    | some m =>
      simp only [beq_iff_eq]
  by_cases h400 : status = 400
  · subst h400
    simp [createErrorFromResponse, specKind, specMessage, ValidationError, hbase]
  by_cases h401 : status = 401
  · subst h401
    simp [createErrorFromResponse, specKind, specMessage, AuthenticationError, hbase]
  by_cases h403 : status = 403
  · subst h403
    simp [createErrorFromResponse, specKind, specMessage, AuthorizationError, hbase]
  by_cases h404 : status = 404
  · subst h404
    simp [createErrorFromResponse, specKind, specMessage, NotFoundError, hbase]
  by_cases h409 : status = 409
  · subst h409
    simp [createErrorFromResponse, specKind, specMessage, ConflictError, hbase]
  by_cases h429 : status = 429
  · subst h429
    simp [createErrorFromResponse, specKind, specMessage, RateLimitError, hbase]
  by_cases h503 : status = 503
  · subst h503
    simp [createErrorFromResponse, specKind, specMessage, ServiceUnavailableError, hbase]
  by_cases h500 : 500 ≤ status
  · simp [createErrorFromResponse, specKind, specMessage, ServerError, hbase,
      h400, h401, h403, h404, h409, h429, h503, h500]
  · simp [createErrorFromResponse, specKind, specMessage, hbase,
      h400, h401, h403, h404, h409, h429, h503, h500]

/-- Witness for C6's amended theorem at the 404 scenario. -/
theorem createErrorFromResponse_table_witness :
    (createErrorFromResponse 404
        (.obj none (some ⟨none, some "User missing", none⟩) none) none).kind
      = specKind 404 ∧
    (createErrorFromResponse 404
        (.obj none (some ⟨none, some "User missing", none⟩) none) none).message
      = specMessage 404 (.obj none (some ⟨none, some "User missing", none⟩) none) :=
  ⟨(createErrorFromResponse_table 404
      (.obj none (some ⟨none, some "User missing", none⟩) none) none).1,
    (createErrorFromResponse_table 404
      (.obj none (some ⟨none, some "User missing", none⟩) none) none).2.1⟩

/-! ## Theorems: BaseClient request execution -/

/-- Claim C7: on an HTTP 400 whose body is the envelope
`{success:false, error:{code:"VALIDATION_ERROR", message:"email invalid"}}`,
the pass-through `executeRequest` resolves with that exact envelope, while
the legacy unwrap-or-throw design rejects with a `ValidationError` whose
message is `"email invalid"`. -/
theorem envelope_passthrough_vs_legacy (baseUrl : String) (timeout : Nat)
    (requestId : Option String) :
    executeRequest baseUrl timeout (.error ⟨some "ERR_BAD_REQUEST",
        some ⟨400, .obj (some false)
          (some ⟨some "VALIDATION_ERROR", some "email invalid", none⟩) none, requestId⟩,
        "Request failed with status code 400"⟩)
      = .ok (.obj (some false)
          (some ⟨some "VALIDATION_ERROR", some "email invalid", none⟩) none) ∧
    legacyExecuteRequest baseUrl timeout (.error ⟨some "ERR_BAD_REQUEST",
        some ⟨400, .obj (some false)
          (some ⟨some "VALIDATION_ERROR", some "email invalid", none⟩) none, requestId⟩,
        "Request failed with status code 400"⟩)
      = .error (ValidationError "email invalid" none requestId) ∧
    (ValidationError "email invalid" none requestId).kind = .validation ∧
    (ValidationError "email invalid" none requestId).message = "email invalid" :=
  ⟨rfl, rfl, rfl, rfl⟩

/-- Claim C9: whenever a transport rejection carries an HTTP error response — of any
status, including retryable ones like 500 — whose body is an object with a
`success` field equal to `false`, the pass-through `executeRequest` returns
that body instead of throwing, so the surrounding retry engine observes a
success: wrapped in `retry` under any policy with `maxAttempts ≥ 1`, the
operation resolves on the first attempt with exactly one invocation and no
retry ever occurs. -/
theorem passthrough_envelope_defeats_retry (baseUrl : String) (timeout : Nat)
    (status : Nat) (code : Option String) (errMessage : String)
    (errF : Option ErrField) (dataF : Option String) (requestId : Option String)
    (config : RetryConfig ClientError) (hmax : 1 ≤ config.maxAttempts) :
    executeRequest baseUrl timeout
        (.error ⟨code, some ⟨status, .obj (some false) errF dataF, requestId⟩, errMessage⟩)
      = .ok (.obj (some false) errF dataF) ∧
    retry (fun _ => executeRequest baseUrl timeout
        (.error ⟨code, some ⟨status, .obj (some false) errF dataF, requestId⟩, errMessage⟩))
        config
      = (.resolved (.obj (some false) errF dataF), 1) := by
  have hexec : executeRequest baseUrl timeout
      (.error ⟨code, some ⟨status, .obj (some false) errF dataF, requestId⟩, errMessage⟩)
      = .ok (.obj (some false) errF dataF) := by
    simp [executeRequest, ResponseBody.truthy, isErrorEnvelope]
  refine ⟨hexec, ?_⟩
  obtain ⟨r, hr⟩ : ∃ r, config.maxAttempts.toNat = r + 1 :=
    ⟨config.maxAttempts.toNat - 1, by omega⟩
  rw [retry, hr, retryLoop, hexec]

/-- Witness for C9 at a retryable status (500) under the default-derived
policy `maxAttempts = 3`. -/
theorem passthrough_envelope_defeats_retry_witness :
    executeRequest "https://api.tutenet.com/v1" 10000
        (.error ⟨none, some ⟨500, .obj (some false) none none, none⟩, "boom"⟩)
      = .ok (.obj (some false) none none) ∧
    retry (fun _ => executeRequest "https://api.tutenet.com/v1" 10000
        (.error ⟨none, some ⟨500, .obj (some false) none none, none⟩, "boom"⟩))
        ⟨3, fun e => isRetryableError (.client e)⟩
      = (.resolved (.obj (some false) none none), 1) :=
  passthrough_envelope_defeats_retry "https://api.tutenet.com/v1" 10000 500 none "boom"
    none none none ⟨3, fun e => isRetryableError (.client e)⟩ (by decide)

/-! ## Theorems: configuration validation -/

/-- Claim C8 counterexample: `timeout = 0` lies outside the 1000–60000 range, yet
`validateConfig` accepts the configuration, because `0` is falsy and the JS
guard `config.timeout && (...)` skips the range check. -/
theorem validateConfig_timeout_zero_counterexample :
    ((0 : Int) < 1000 ∨ (0 : Int) > 60000) ∧
    validateConfig ⟨"development", "external", some 0, some 2⟩ = .ok () :=
  ⟨Or.inl (by norm_num), rfl⟩

/-- Claim C8 (amended): `validateConfig` throws exactly when the environment or API
type is outside its enum, when the timeout is present, nonzero and outside
1000–60000, or when the retry count is present and outside 0–5; every
configuration with all fields in range (and in particular also one with a
falsy timeout such as `0`) passes. -/
theorem validateConfig_characterization (config : ClientConfig) :
    validateConfig config ≠ .ok () ↔
      environmentValues.contains config.environment = false ∨
      apiTypeValues.contains config.apiType = false ∨
      (∃ t, config.timeout = some t ∧ t ≠ 0 ∧ (t < 1000 ∨ 60000 < t)) ∨
      (∃ r, config.retries = some r ∧ (r < 0 ∨ 5 < r)) := by
  obtain ⟨env, api, toVal, reVal⟩ := config
  simp only [validateConfig]
  split_ifs with h1 h2 h3 h4
  · simp_all
  · simp_all
  · simp_all only [Bool.not_eq_true', Bool.and_eq_true, decide_eq_true_eq, ne_eq,
      reduceCtorEq, not_false_eq_true, true_iff, Bool.or_eq_true]
    obtain ⟨ht, hrange⟩ := h3
    cases toVal with
    | none => simp [numTruthy] at ht
    | some t =>
      refine Or.inr (Or.inr (Or.inl ⟨t, rfl, ?_, ?_⟩))
      · simp [numTruthy] at ht
        exact ht
      · simpa using hrange
  · simp_all only [Bool.not_eq_true', Bool.and_eq_true, decide_eq_true_eq, ne_eq,
      reduceCtorEq, not_false_eq_true, true_iff, Bool.or_eq_true]
    obtain ⟨ht, hrange⟩ := h4
    cases reVal with
    | none => simp [numTruthy] at ht
    | some r =>
      refine Or.inr (Or.inr (Or.inr ⟨r, rfl, ?_⟩))
      simpa using hrange
  · have h1' : environmentValues.contains env = true := by
      revert h1
      cases environmentValues.contains env <;> simp
    have h2' : apiTypeValues.contains api = true := by
      revert h2
      cases apiTypeValues.contains api <;> simp
    simp only [ne_eq, not_true_eq_false, false_iff, not_or, not_exists, not_and]
    refine ⟨by simpa using h1', by simpa using h2', ?_, ?_⟩
    · intro t ht h0
      rw [ht] at h3
      simp only [numTruthy, Option.getD_some, Bool.and_eq_true, bne_iff_ne, ne_eq,
        decide_eq_true_eq, Bool.or_eq_true, not_and, not_or] at h3
      omega
    · intro r hr
      rw [hr] at h4
      simp only [numTruthy, Option.getD_some, Bool.and_eq_true, bne_iff_ne, ne_eq,
        decide_eq_true_eq, Bool.or_eq_true, not_and, not_or] at h4
      omega

/-- Witness for C8's amended theorem: a fully in-range configuration
validates, extracted from the characterization at a concrete input. -/
theorem validateConfig_characterization_witness :
    validateConfig ⟨"development", "external", some 10000, some 2⟩ = .ok () := by
  by_contra hne
  have h := (validateConfig_characterization
    ⟨"development", "external", some 10000, some 2⟩).mp hne
  rcases h with h | h | ⟨t, ht, h0, hr⟩ | ⟨r, hr', hR⟩
  · simp [environmentValues] at h
  · simp [apiTypeValues] at h
  · simp only [Option.some.injEq] at ht
    omega
  · simp only [Option.some.injEq] at hr'
    omega

end TuteNet
